import Mathlib

/-!
Verification of the lane-dodging arcade simulation (GameCanvas update loop,
perspective projector, spawn scheduler, collision detector) and of the
debrief service wrapper, as a shallow embedding over ℚ and ℕ.

The per-frame `update` callback of the canvas component is embedded as the
pure function `tick` below: it consumes the per-frame random draws through
an explicit `Oracle`, and reports the external callback invocations
(`setScore`, `updateLives`, `onGameOver`) and the sound effects of the
frame as an explicit `TickEvents` record.  The external game state owned
by the host (lives, isPlaying, isGameOver) is folded into `SimState`; a
callback issued on one frame is visible to the next frame, which matches
the host applying the published values between animation frames.
-/

namespace SpaceAdventure

/-- Rock type variants, from the `Rock` interface of `types.ts`. -/
inductive RockType where
  | jagged
  | round
  | crystal
deriving DecidableEq, Repr

/-- `LANES = 4`, the visual constant of the canvas component. -/
def LANES : Nat := 4

/-- `MAX_GAME_WIDTH = 600`. -/
def MAX_GAME_WIDTH : ℚ := 600

/-- `PLAYER_Y_OFFSET = 120`, the player distance from the bottom. -/
def PLAYER_Y_OFFSET : ℚ := 120

/-- `hitDistance = 50`, the collision threshold of the update loop. -/
def hitDistance : ℚ := 50

/-- The `Player` interface of `types.ts`. -/
structure Player where
  lane : Nat
  x : ℚ
  y : ℚ
  isHit : Bool
  hitTimer : Nat
deriving DecidableEq, Repr

/-- The `Rock` interface of `types.ts`.  The source field named rotation is
embedded as `rot` here; it stores the same continuous angle. -/
structure Rock where
  id : ℚ
  lane : Nat
  y : ℚ
  speed : ℚ
  rot : ℚ
  type : RockType
deriving DecidableEq, Repr

/-- The combined simulation state of one frame: the mutable refs of the
canvas component (player, rocks, frameCount, scoreRef, difficultyRef,
lastSpawnFrameRef) together with the host game state the loop reads
(lives, isPlaying, isGameOver) and the pending input queue. -/
structure SimState where
  player : Player
  rocks : List Rock
  frameCount : Nat
  score : Nat
  difficulty : ℚ
  lastSpawnFrame : Nat
  lives : Int
  isPlaying : Bool
  isGameOver : Bool
  inputQueue : List String
deriving DecidableEq, Repr

/-- The two procedural sound effects of `playSound`. -/
inductive Sound where
  | move
  | hit
deriving DecidableEq, Repr

/-- The externally observable effects of one frame: sounds played, and the
arguments of every `setScore`, `updateLives` and `onGameOver` callback
invocation, in order, plus whether a rock was spawned. -/
structure TickEvents where
  sounds : List Sound
  setScoreCalls : List Nat
  updateLivesCalls : List Int
  gameOverCalls : List Nat
  spawned : Bool
deriving DecidableEq, Repr

/-- The empty event record (a frame skipped because the game is not
playing or is over). -/
def noEvents : TickEvents :=
  { sounds := [], setScoreCalls := [], updateLivesCalls := [],
    gameOverCalls := [], spawned := false }

/-- The random draws a single frame can consume, made explicit.  `laneDraw`,
`speedDraw`, `typeDraw1`, `typeDraw2` stand for successive `Math.random()`
results in `[0,1)`; `rotDraw` stands for the product of a random draw with π
(the initial rotation angle); `idVal` stands for `Date.now() + Math.random()`. -/
structure Oracle where
  laneDraw : ℚ
  speedDraw : ℚ
  rotDraw : ℚ
  typeDraw1 : ℚ
  typeDraw2 : ℚ
  idVal : ℚ
deriving DecidableEq, Repr

/-- Canvas dimensions read by the loop each frame. -/
structure Config where
  width : ℚ
  height : ℚ
deriving DecidableEq, Repr

/-- Result record of the perspective projector. -/
structure Projected where
  x : ℚ
  y : ℚ
  scale : ℚ
deriving DecidableEq, Repr

/-- The 3D projection helper `project(x, y, canvasWidth, canvasHeight)`:
`scale = 0.4 + 0.6 * (y / canvasHeight)`, x contracted toward the center
by `scale`, y unchanged. -/
def project (x y canvasWidth canvasHeight : ℚ) : Projected :=
  let scale : ℚ := 2/5 + (3/5) * (y / canvasHeight)
  let cx := canvasWidth / 2
  let dx := x - cx
  { x := cx + dx * scale, y := y, scale := scale }

/-- The obstacle type draw of the spawn step:
`Math.random() > 0.8 ? crystal : Math.random() > 0.6 ? jagged : round`.
Note the source draws twice: `u1` is the first draw, `u2` the second. -/
def rockType (u1 u2 : ℚ) : RockType :=
  if 8/10 < u1 then RockType.crystal
  else if 6/10 < u2 then RockType.jagged
  else RockType.round

/-- The spawn interval of a frame:
`Math.max(30, Math.floor(baseSpawnRate / difficulty))` with base 90. -/
def spawnRate (d : ℚ) : Int := max 30 ⌊90 / d⌋

/-- The rock pushed by the spawn step, as a function of the frame draws
and the difficulty in effect. -/
def newRock (o : Oracle) (d : ℚ) : Rock :=
  { id := o.idVal
    lane := ⌊o.laneDraw * (LANES : ℚ)⌋.toNat
    y := -100
    speed := (o.speedDraw * 2 + 2) * d
    rot := o.rotDraw
    type := rockType o.typeDraw1 o.typeDraw2 }

/-- One dequeued token applied to the current lane: left decrements only
above lane 0, right increments only below `LANES - 1`, anything else is
dropped.  The boolean is `didMove`. -/
def moveLane (lane : Nat) (m : String) : Nat × Bool :=
  if m = "left" ∧ 0 < lane then (lane - 1, true)
  else if m = "right" ∧ lane < LANES - 1 then (lane + 1, true)
  else (lane, false)

/-- The input-processing step of a frame: dequeue at most one token
(strict FIFO) and apply it. Returns (new lane, remaining queue, didMove). -/
def inputStep (lane : Nat) (q : List String) : Nat × List String × Bool :=
  match q with
  | [] => (lane, [], false)
  | m :: rest => ((moveLane lane m).1, rest, (moveLane lane m).2)

/-- Per-frame obstacle advance: `rock.y += rock.speed`, rotation `+= 0.02`. -/
def advanceRock (r : Rock) : Rock := { r with y := r.y + r.speed, rot := r.rot + 1/50 }

/-- The collision test of the update loop: same lane and depth distance
below `hitDistance`. -/
def hitB (p : Player) (r : Rock) : Bool :=
  decide (r.lane = p.lane) && decide (|r.y - p.y| < hitDistance)

/-- `gameWidth = Math.min(canvas.width, MAX_GAME_WIDTH)`. -/
def gameWidth (cfg : Config) : ℚ := min cfg.width MAX_GAME_WIDTH

/-- `laneWidth = gameWidth / LANES`. -/
def laneWidth (cfg : Config) : ℚ := gameWidth cfg / (LANES : ℚ)

/-- `offsetX = (canvas.width - gameWidth) / 2`. -/
def offsetX (cfg : Config) : ℚ := (cfg.width - gameWidth cfg) / 2

/-- The lane after the input step of a frame. -/
def tickLane (s : SimState) : Nat := (inputStep s.player.lane s.inputQueue).1

/-- The input queue after the input step of a frame. -/
def tickQueue (s : SimState) : List String := (inputStep s.player.lane s.inputQueue).2.1

/-- Whether the input step of a frame accepted a lane change. -/
def tickMoved (s : SimState) : Bool := (inputStep s.player.lane s.inputQueue).2.2

/-- The smoothed player x after a frame:
`x += (targetX - x) * 0.2` with `targetX = offsetX + (lane + 0.5) * laneWidth`. -/
def tickX (cfg : Config) (s : SimState) : ℚ :=
  s.player.x + (offsetX cfg + ((tickLane s : ℚ) + 1/2) * laneWidth cfg - s.player.x) * (1/5)

/-- The difficulty in effect during a frame: recomputed as
`1 + score / 4000` only when the incremented frame counter is divisible
by 10, otherwise the previous value is kept. -/
def tickDiff (s : SimState) : ℚ :=
  if (s.frameCount + 1) % 10 = 0 then 1 + ((s.score + 1 : ℕ) : ℚ) / 4000 else s.difficulty

/-- The `setScore` invocations of a frame: `Math.floor(score / 10)` on
every 10th frame, nothing otherwise. -/
def tickScoreCalls (s : SimState) : List Nat :=
  if (s.frameCount + 1) % 10 = 0 then [(s.score + 1) / 10] else []

/-- The spawn decision of a frame:
`frameCount - lastSpawnFrame >= spawnRate`. -/
def tickSpawns (s : SimState) : Bool :=
  decide (spawnRate (tickDiff s) ≤ ((s.frameCount + 1 : ℕ) : ℤ) - (s.lastSpawnFrame : ℤ))

/-- The rock list after the spawn push and the per-frame advance. -/
def tickRocksMoved (o : Oracle) (s : SimState) : List Rock :=
  (if tickSpawns s then s.rocks ++ [newRock o (tickDiff s)] else s.rocks).map advanceRock

/-- The rock list after the prune step: rocks with
`y < canvas.height + 150` survive. -/
def tickRocksPruned (cfg : Config) (o : Oracle) (s : SimState) : List Rock :=
  (tickRocksMoved o s).filter (fun r => decide (r.y < cfg.height + 150))

/-- The hit timer after the decrement step of a frame. -/
def tickTimer (s : SimState) : Nat :=
  if 0 < s.player.hitTimer then s.player.hitTimer - 1 else s.player.hitTimer

/-- The player record as the collision pass sees it: moved lane, smoothed
x, reset y, decremented timer, isHit cleared while the timer was
running. -/
def tickPlayerPre (cfg : Config) (s : SimState) : Player :=
  { lane := tickLane s, x := tickX cfg s, y := cfg.height - PLAYER_Y_OFFSET,
    isHit := if 0 < s.player.hitTimer then false else s.player.isHit,
    hitTimer := tickTimer s }

/-- How many rocks the collision pass of a frame consumes: the pass runs
only when the decremented timer is 0, and then every rock of the pruned
list that shares the player lane within `hitDistance` is handled (the
source loop keeps iterating after `handleHit`, so all of them hit). -/
def tickHits (cfg : Config) (o : Oracle) (s : SimState) : Nat :=
  if tickTimer s = 0 then
    ((tickRocksPruned cfg o s).filter (fun r => hitB (tickPlayerPre cfg s) r)).length
  else 0

/-- The rock list left after the collision pass. -/
def tickRocksFinal (cfg : Config) (o : Oracle) (s : SimState) : List Rock :=
  if tickTimer s = 0 then
    (tickRocksPruned cfg o s).filter (fun r => !(hitB (tickPlayerPre cfg s) r))
  else tickRocksPruned cfg o s

/-- The live part of one frame of the `update` callback.
Mirrors the source order:
input; player x interpolation and y reset; frameCount/score increment;
throttled score publish and difficulty recompute; spawn check; rock
advance; prune; hit-timer decrement and isHit clear; collision pass
(each hit removes its rock, plays a hit sound, sets hitTimer to 60, sets
isHit, publishes `gameState.lives - 1` and fires game over when that is
≤ 0; `gameState.lives` is the host value captured at frame start, so all
hits of one frame publish the same number). -/
def tickBody (cfg : Config) (o : Oracle) (s : SimState) : SimState × TickEvents :=
  ({ player :=
       if 0 < tickHits cfg o s then
         { tickPlayerPre cfg s with hitTimer := 60, isHit := true }
       else tickPlayerPre cfg s,
     rocks := tickRocksFinal cfg o s,
     frameCount := s.frameCount + 1,
     score := s.score + 1,
     difficulty := tickDiff s,
     lastSpawnFrame := if tickSpawns s then s.frameCount + 1 else s.lastSpawnFrame,
     lives := if 0 < tickHits cfg o s then s.lives - 1 else s.lives,
     isPlaying := s.isPlaying,
     isGameOver := s.isGameOver || (decide (0 < tickHits cfg o s) && decide (s.lives - 1 ≤ 0)),
     inputQueue := tickQueue s },
   { sounds := (if tickMoved s then [Sound.move] else [])
       ++ List.replicate (tickHits cfg o s) Sound.hit,
     setScoreCalls := tickScoreCalls s,
     updateLivesCalls := List.replicate (tickHits cfg o s) (s.lives - 1),
     gameOverCalls :=
       if 0 < tickHits cfg o s ∧ s.lives - 1 ≤ 0 then
         List.replicate (tickHits cfg o s) ((s.score + 1) / 10)
       else [],
     spawned := tickSpawns s })

/-- One frame: the body runs only while playing and not game over,
otherwise the frame leaves the state untouched and emits nothing. -/
def tick (cfg : Config) (o : Oracle) (s : SimState) : SimState × TickEvents :=
  if s.isPlaying && !s.isGameOver then tickBody cfg o s else (s, noEvents)

/-- The freshly initialized state of a run: lane 1, x at the lane-1
center, all counters zero, difficulty 1, five lives, playing. -/
def initState (cfg : Config) : SimState :=
  { player := { lane := 1, x := offsetX cfg + laneWidth cfg * (3/2),
                y := cfg.height - PLAYER_Y_OFFSET,
                isHit := false, hitTimer := 0 },
    rocks := [], frameCount := 0, score := 0, difficulty := 1, lastSpawnFrame := 0,
    lives := 5, isPlaying := true, isGameOver := false, inputQueue := [] }

/-- One scheduler step of a run: the host appends a batch of input tokens
to the queue, then the frame runs with its random draws. -/
def runStep (cfg : Config) (s : SimState) (p : List String × Oracle) : SimState :=
  (tick cfg p.2 { s with inputQueue := s.inputQueue ++ p.1 }).1

/-- Iterate `runStep` from an arbitrary state. -/
def runFrom (cfg : Config) (s : SimState) (steps : List (List String × Oracle)) : SimState :=
  steps.foldl (runStep cfg) s

/-- A complete run: iterate from the initialized state. -/
def run (cfg : Config) (steps : List (List String × Oracle)) : SimState :=
  runFrom cfg (initState cfg) steps

/-- The state is live: playing and not over (the condition under which a
frame advances the simulation). -/
def running (s : SimState) : Prop := s.isPlaying = true ∧ s.isGameOver = false

instance (s : SimState) : Decidable (running s) := by
  unfold running; infer_instance

/-- The flashing test of the renderer: the craft is hidden exactly when
`hitTimer > 0 && Math.floor(hitTimer / 4) % 2 === 0`. -/
def shipHidden (p : Player) : Bool :=
  decide (0 < p.hitTimer) && decide (p.hitTimer / 4 % 2 = 0)

/-- Modelled from the spec: the single-draw type rule the spec describes
(`u > 0.8` crystal, else `u > 0.6` jagged, else round), stated for
comparison with the implemented two-draw `rockType`. -/
def specRockType (u : ℚ) : RockType :=
  if 8/10 < u then RockType.crystal
  else if 6/10 < u then RockType.jagged
  else RockType.round

/-- Modelled from the spec: the spawn-interval formula of the claim,
`max(30, floor(90 / (1 + rawScore/4000)))` with the difficulty taken
from the current raw score on every frame, stated for comparison with
the throttled difficulty the code uses. -/
def specInterval (rawScore : Nat) : Int :=
  max 30 ⌊(90 : ℚ) / (1 + (rawScore : ℚ) / 4000)⌋

section BasicLemmas

/-- A frame in a non-live state is skipped entirely. -/
lemma tick_not_running (cfg : Config) (o : Oracle) (s : SimState)
    (h : ¬ running s) : tick cfg o s = (s, noEvents) := by
  unfold tick running at *
  cases hp : s.isPlaying <;> cases hg : s.isGameOver <;> simp_all

/-- A frame in a live state runs the body. -/
lemma tick_running (cfg : Config) (o : Oracle) (s : SimState)
    (h : running s) : tick cfg o s = tickBody cfg o s := by
  obtain ⟨h1, h2⟩ := h
  unfold tick
  rw [h1, h2]
  rfl

/-- A decremented timer that is still positive suppresses the whole
collision pass. -/
lemma tickHits_of_timer_pos (cfg : Config) (o : Oracle) (s : SimState)
    (h : 0 < tickTimer s) : tickHits cfg o s = 0 := by
  unfold tickHits
  rw [if_neg (by omega)]

end BasicLemmas

/-- C6: for all x, y and positive canvas dimensions, `project` yields
scale 0.4 at depth 0, scale 1.0 at depth `height`, keeps the horizontal
center fixed at `width / 2` for every depth, and returns the input y
unchanged. -/
theorem C6_projection (x y W H : ℚ) (hW : 0 < W) (hH : 0 < H) :
    (project x 0 W H).scale = 2/5 ∧
    (project x H W H).scale = 1 ∧
    (project (W/2) y W H).x = W/2 ∧
    (project x y W H).y = y := by
  unfold project
  refine ⟨by norm_num, ?_, ?_, rfl⟩
  · show 2/5 + 3/5 * (H / H) = 1
    rw [div_self hH.ne']
    norm_num
  · show W/2 + (W/2 - W/2) * _ = W/2
    ring

theorem C6_projection_witness :
    (project 7 0 600 380).scale = 2/5 ∧
    (project 7 380 600 380).scale = 1 ∧
    (project 300 123 600 380).x = 300 ∧
    (project 7 123 600 380).y = 123 := by
  have h1 := C6_projection 7 123 600 380 (by norm_num) (by norm_num)
  have h2 := C6_projection 300 123 600 380 (by norm_num) (by norm_num)
  refine ⟨h1.1, h1.2.1, ?_, h1.2.2.2⟩
  have := h2.2.2.1
  norm_num at this ⊢
  exact this

/-- C3 counterexample: the code draws twice.  With a first draw of 0.5
and a second draw of 0.7 the spawned type is jagged, while the single
draw rule of the claim maps u = 0.5 to round.  So the type is not a
function of one uniform draw with the stated 20/20/60 weights. -/
theorem C3_counterexample :
    rockType (1/2) (7/10) = RockType.jagged ∧
    specRockType (1/2) = RockType.round ∧
    RockType.jagged ≠ RockType.round := by
  refine ⟨?_, ?_, by simp⟩ <;> norm_num [rockType, specRockType]

/-- The exact decision regions of the two-draw type rule. -/
lemma rockType_cases (u1 u2 : ℚ) :
    (rockType u1 u2 = RockType.crystal ↔ 8/10 < u1) ∧
    (rockType u1 u2 = RockType.jagged ↔ u1 ≤ 8/10 ∧ 6/10 < u2) ∧
    (rockType u1 u2 = RockType.round ↔ u1 ≤ 8/10 ∧ u2 ≤ 6/10) := by
  unfold rockType
  by_cases h1 : 8/10 < u1 <;> by_cases h2 : 6/10 < u2 <;>
    simp [h1, h2, le_of_not_lt, not_lt.mp]

/-- The midpoint of cell k of the uniform 100-cell grid on [0,1). -/
def midQ (k : ℕ) : ℚ := (k : ℚ) / 100 + 1 / 200

lemma midQ_gt8 (k : ℕ) : 8/10 < midQ k ↔ 80 ≤ k := by
  unfold midQ
  constructor
  · intro h
    by_contra hk
    push_neg at hk
    have hq : (k : ℚ) ≤ 79 := by exact_mod_cast Nat.lt_succ_iff.mp hk
    linarith
  · intro h
    have hq : (80 : ℚ) ≤ (k : ℚ) := by exact_mod_cast h
    linarith

lemma midQ_gt6 (k : ℕ) : 6/10 < midQ k ↔ 60 ≤ k := by
  unfold midQ
  constructor
  · intro h
    by_contra hk
    push_neg at hk
    have hq : (k : ℚ) ≤ 59 := by exact_mod_cast Nat.lt_succ_iff.mp hk
    linarith
  · intro h
    have hq : (60 : ℚ) ≤ (k : ℚ) := by exact_mod_cast h
    linarith

/-- Of the 100 × 100 uniform midpoint grid on the unit square of draw
pairs, exactly 2000 cells (20%) are typed crystal. -/
lemma rockType_grid_crystal :
    (((Finset.range 100) ×ˢ (Finset.range 100)).filter
      (fun p => rockType (midQ p.1) (midQ p.2) = RockType.crystal)).card = 2000 := by
  have hcong : ((Finset.range 100 ×ˢ Finset.range 100).filter
      (fun p => rockType (midQ p.1) (midQ p.2) = RockType.crystal)) =
      ((Finset.range 100 ×ˢ Finset.range 100).filter (fun p => 80 ≤ p.1)) := by
    apply Finset.filter_congr
    intro p _
    rw [(rockType_cases (midQ p.1) (midQ p.2)).1, midQ_gt8]
  have h2 : (Finset.range 100 ×ˢ Finset.range 100).filter (fun p => 80 ≤ p.1) =
      Finset.Ico 80 100 ×ˢ Finset.range 100 := by
    ext p
    simp only [Finset.mem_filter, Finset.mem_product, Finset.mem_range, Finset.mem_Ico]
    omega
  rw [hcong, h2, Finset.card_product, Nat.card_Ico, Finset.card_range]

/-- Of the same grid, exactly 3200 cells (32%) are typed jagged. -/
lemma rockType_grid_jagged :
    (((Finset.range 100) ×ˢ (Finset.range 100)).filter
      (fun p => rockType (midQ p.1) (midQ p.2) = RockType.jagged)).card = 3200 := by
  have hcong : ((Finset.range 100 ×ˢ Finset.range 100).filter
      (fun p => rockType (midQ p.1) (midQ p.2) = RockType.jagged)) =
      ((Finset.range 100 ×ˢ Finset.range 100).filter
        (fun p => p.1 < 80 ∧ 60 ≤ p.2)) := by
    apply Finset.filter_congr
    intro p _
    rw [(rockType_cases (midQ p.1) (midQ p.2)).2.1]
    rw [show (midQ p.1 ≤ 8/10) = ¬(8/10 < midQ p.1) from by simp [not_lt]]
    rw [midQ_gt8, midQ_gt6]
    omega
  have h2 : (Finset.range 100 ×ˢ Finset.range 100).filter
      (fun p => p.1 < 80 ∧ 60 ≤ p.2) =
      Finset.range 80 ×ˢ Finset.Ico 60 100 := by
    ext p
    simp only [Finset.mem_filter, Finset.mem_product, Finset.mem_range, Finset.mem_Ico]
    omega
  rw [hcong, h2, Finset.card_product, Finset.card_range, Nat.card_Ico]

/-- Of the same grid, exactly 4800 cells (48%) are typed round. -/
lemma rockType_grid_round :
    (((Finset.range 100) ×ˢ (Finset.range 100)).filter
      (fun p => rockType (midQ p.1) (midQ p.2) = RockType.round)).card = 4800 := by
  have hcong : ((Finset.range 100 ×ˢ Finset.range 100).filter
      (fun p => rockType (midQ p.1) (midQ p.2) = RockType.round)) =
      ((Finset.range 100 ×ˢ Finset.range 100).filter
        (fun p => p.1 < 80 ∧ p.2 < 60)) := by
    apply Finset.filter_congr
    intro p _
    rw [(rockType_cases (midQ p.1) (midQ p.2)).2.2]
    rw [show (midQ p.1 ≤ 8/10) = ¬(8/10 < midQ p.1) from by simp [not_lt]]
    rw [show (midQ p.2 ≤ 6/10) = ¬(6/10 < midQ p.2) from by simp [not_lt]]
    rw [midQ_gt8, midQ_gt6]
    omega
  have h2 : (Finset.range 100 ×ˢ Finset.range 100).filter
      (fun p => p.1 < 80 ∧ p.2 < 60) =
      Finset.range 80 ×ˢ Finset.range 60 := by
    ext p
    simp only [Finset.mem_filter, Finset.mem_product, Finset.mem_range]
    omega
  rw [hcong, h2, Finset.card_product, Finset.card_range, Finset.card_range]

/-- C3 (amended): the spawned type is decided by two successive uniform
draws: crystal exactly when the first draw exceeds 0.8 (20% of draw
space), jagged exactly when the first is ≤ 0.8 and the second exceeds
0.6 (32%), round otherwise (48%); the stated anchor draws hold with
0.85 / 0.7 / 0.5 read as the draw each branch tests, the spawn step
uses exactly this rule, and on the uniform 100 × 100 midpoint grid of
draw pairs the three types cover 2000, 3200 and 4800 cells. -/
theorem C3_type_rule :
    (∀ u1 u2 : ℚ, rockType u1 u2 = RockType.crystal ↔ 8/10 < u1) ∧
    (∀ u1 u2 : ℚ, rockType u1 u2 = RockType.jagged ↔ u1 ≤ 8/10 ∧ 6/10 < u2) ∧
    (∀ u1 u2 : ℚ, rockType u1 u2 = RockType.round ↔ u1 ≤ 8/10 ∧ u2 ≤ 6/10) ∧
    (∀ u2 : ℚ, rockType (85/100) u2 = RockType.crystal) ∧
    (∀ u1 : ℚ, u1 ≤ 8/10 → rockType u1 (7/10) = RockType.jagged) ∧
    (∀ u1 : ℚ, u1 ≤ 8/10 → rockType u1 (5/10) = RockType.round) ∧
    (∀ (o : Oracle) (d : ℚ), (newRock o d).type = rockType o.typeDraw1 o.typeDraw2) ∧
    (((Finset.range 100) ×ˢ (Finset.range 100)).filter
      (fun p => rockType (midQ p.1) (midQ p.2) = RockType.crystal)).card = 2000 ∧
    (((Finset.range 100) ×ˢ (Finset.range 100)).filter
      (fun p => rockType (midQ p.1) (midQ p.2) = RockType.jagged)).card = 3200 ∧
    (((Finset.range 100) ×ˢ (Finset.range 100)).filter
      (fun p => rockType (midQ p.1) (midQ p.2) = RockType.round)).card = 4800 := by
  refine ⟨fun u1 u2 => (rockType_cases u1 u2).1, fun u1 u2 => (rockType_cases u1 u2).2.1,
    fun u1 u2 => (rockType_cases u1 u2).2.2, ?_, ?_, ?_, fun o d => rfl,
    rockType_grid_crystal, rockType_grid_jagged, rockType_grid_round⟩
  · intro u2
    exact (rockType_cases _ u2).1.mpr (by norm_num)
  · intro u1 h
    exact (rockType_cases u1 _).2.1.mpr ⟨h, by norm_num⟩
  · intro u1 h
    exact (rockType_cases u1 _).2.2.mpr ⟨h, by norm_num⟩

theorem C3_type_rule_witness :
    rockType (85/100) (1/2) = RockType.crystal ∧
    rockType (7/10) (7/10) = RockType.jagged ∧
    rockType (7/10) (5/10) = RockType.round := by
  refine ⟨C3_type_rule.2.2.2.1 (1/2), ?_, ?_⟩
  · exact C3_type_rule.2.2.2.2.1 (7/10) (by norm_num)
  · exact C3_type_rule.2.2.2.2.2.1 (7/10) (by norm_num)

/-- C7: after the prune step of a live frame, every rock still active is
strictly below the visible height plus the 150-unit margin; the
collision pass can only remove further rocks, so the property holds of
the frame output as well. -/
theorem C7_prune (cfg : Config) (o : Oracle) (s : SimState) (h : running s) :
    ∀ r ∈ (tick cfg o s).1.rocks, r.y < cfg.height + 150 := by
  rw [tick_running cfg o s h]
  intro r hr
  have hpruned : r ∈ tickRocksPruned cfg o s := by
    have hr2 : r ∈ tickRocksFinal cfg o s := hr
    unfold tickRocksFinal at hr2
    split at hr2
    · exact List.mem_of_mem_filter hr2
    · exact hr2
  unfold tickRocksPruned at hpruned
  have := List.of_mem_filter hpruned
  simpa using this

theorem C7_prune_witness :
    ((tick { width := 600, height := 380 }
        { laneDraw := 0, speedDraw := 0, rotDraw := 0,
          typeDraw1 := 0, typeDraw2 := 0, idVal := 0 }
        (initState { width := 600, height := 380 })).1.rocks.all
      (fun r => decide (r.y < (380 : ℚ) + 150))) = true := by
  rw [List.all_eq_true]
  intro r hr
  simpa using C7_prune { width := 600, height := 380 } _ _ ⟨rfl, rfl⟩ r hr

lemma inputStep_nil (lane : Nat) : inputStep lane [] = (lane, [], false) := rfl

lemma inputStep_cons (lane : Nat) (m : String) (rest : List String) :
    inputStep lane (m :: rest) = ((moveLane lane m).1, rest, (moveLane lane m).2) := rfl

/-- Tokens other than an in-range left/right leave the lane unchanged. -/
lemma moveLane_lt (lane : Nat) (m : String) (h : lane < LANES) :
    (moveLane lane m).1 < LANES := by
  unfold moveLane LANES at *
  split_ifs with h1 h2
  · omega
  · have := h2.2
    omega
  · exact h

/-- The input step preserves the lane bound. -/
lemma tickLane_lt (s : SimState) (h : s.player.lane < LANES) : tickLane s < LANES := by
  unfold tickLane inputStep
  cases hq : s.inputQueue with
  | nil => exact h
  | cons m rest => exact moveLane_lt _ m h

/-- One frame preserves the lane bound. -/
lemma tick_lane_lt (cfg : Config) (o : Oracle) (s : SimState)
    (h : s.player.lane < LANES) : (tick cfg o s).1.player.lane < LANES := by
  unfold tick
  split
  · show (tickBody cfg o s).1.player.lane < LANES
    have hb := tickLane_lt s h
    show (if 0 < tickHits cfg o s then
            { tickPlayerPre cfg s with hitTimer := 60, isHit := true }
          else tickPlayerPre cfg s).lane < LANES
    split <;> exact hb
  · exact h

/-- One scheduler step preserves the lane bound (appending host input to
the queue does not touch the player). -/
lemma runStep_lane_lt (cfg : Config) (s : SimState) (p : List String × Oracle)
    (h : s.player.lane < LANES) : (runStep cfg s p).player.lane < LANES :=
  tick_lane_lt cfg p.2 _ h

/-- Every reachable state keeps the lane bound. -/
lemma runFrom_lane_lt (cfg : Config) :
    ∀ (steps : List (List String × Oracle)) (s : SimState),
      s.player.lane < LANES → (runFrom cfg s steps).player.lane < LANES := by
  intro steps
  induction steps with
  | nil => intro s h; exact h
  | cons p rest ih =>
    intro s h
    have h1 : (runFrom cfg s (p :: rest)) = runFrom cfg (runStep cfg s p) rest := by
      simp [runFrom]
    rw [h1]
    exact ih _ (runStep_lane_lt cfg s p h)

/-- C4: for every host input schedule the player lane stays within
[0, LANES-1]; a live frame dequeues exactly the queue head (at most one
token); a left token at lane 0 and a right token at lane LANES-1 leave
the lane unchanged and play no move sound; an in-range left decrements
and an in-range right increments the lane. -/
theorem C4_lane_bounds (cfg : Config) :
    (∀ steps : List (List String × Oracle), (run cfg steps).player.lane ≤ LANES - 1) ∧
    (∀ (o : Oracle) (s : SimState), running s →
       (tick cfg o s).1.inputQueue = s.inputQueue.tail) ∧
    (∀ (o : Oracle) (s : SimState), running s →
       s.inputQueue.head? = some "left" → s.player.lane = 0 →
       (tick cfg o s).1.player.lane = 0 ∧ Sound.move ∉ (tick cfg o s).2.sounds) ∧
    (∀ (o : Oracle) (s : SimState), running s →
       s.inputQueue.head? = some "right" → s.player.lane = LANES - 1 →
       (tick cfg o s).1.player.lane = LANES - 1 ∧ Sound.move ∉ (tick cfg o s).2.sounds) ∧
    (∀ (o : Oracle) (s : SimState), running s →
       s.inputQueue.head? = some "left" → 0 < s.player.lane →
       (tick cfg o s).1.player.lane = s.player.lane - 1) ∧
    (∀ (o : Oracle) (s : SimState), running s →
       s.inputQueue.head? = some "right" → s.player.lane < LANES - 1 →
       (tick cfg o s).1.player.lane = s.player.lane + 1) := by
  have laneEq : ∀ (o : Oracle) (s : SimState), running s →
      (tick cfg o s).1.player.lane = tickLane s := by
    intro o s h
    rw [tick_running cfg o s h]
    show (if 0 < tickHits cfg o s then
            { tickPlayerPre cfg s with hitTimer := 60, isHit := true }
          else tickPlayerPre cfg s).lane = tickLane s
    split <;> rfl
  have soundEq : ∀ (o : Oracle) (s : SimState), running s →
      (tick cfg o s).2.sounds =
        (if tickMoved s then [Sound.move] else [])
          ++ List.replicate (tickHits cfg o s) Sound.hit := by
    intro o s h
    rw [tick_running cfg o s h]
    rfl
  have headCons : ∀ (s : SimState) (t : String), s.inputQueue.head? = some t →
      s.inputQueue = t :: s.inputQueue.tail := by
    intro s t hq
    cases hc : s.inputQueue with
    | nil => rw [hc] at hq; simp at hq
    | cons a l =>
      rw [hc] at hq
      simp at hq
      rw [hq]
      rfl
  refine ⟨?_, ?_, ?_, ?_, ?_, ?_⟩
  · intro steps
    have h0 : (initState cfg).player.lane < LANES := by
      simp [initState, LANES]
    have h4 := runFrom_lane_lt cfg steps (initState cfg) h0
    unfold run LANES at *
    omega
  · intro o s h
    rw [tick_running cfg o s h]
    show tickQueue s = s.inputQueue.tail
    unfold tickQueue
    cases s.inputQueue with
    | nil => rfl
    | cons m rest => rfl

  · intro o s h hq hl
    have hcons := headCons s _ hq
    have hml : moveLane s.player.lane "left" = (s.player.lane, false) := by
      rw [hl]
      simp [moveLane, LANES]
    have hlane : tickLane s = s.player.lane := by
      unfold tickLane
      rw [hcons, inputStep_cons, hml]
    have hmov : tickMoved s = false := by
      unfold tickMoved
      rw [hcons, inputStep_cons, hml]
    refine ⟨by rw [laneEq o s h, hlane, hl], ?_⟩
    rw [soundEq o s h, hmov]
    intro hmem
    simp at hmem
  · intro o s h hq hl
    have hcons := headCons s _ hq
    have hml : moveLane s.player.lane "right" = (s.player.lane, false) := by
      rw [hl]
      simp [moveLane, LANES]
    have hlane : tickLane s = s.player.lane := by
      unfold tickLane
      rw [hcons, inputStep_cons, hml]
    have hmov : tickMoved s = false := by
      unfold tickMoved
      rw [hcons, inputStep_cons, hml]
    refine ⟨by rw [laneEq o s h, hlane, hl], ?_⟩
    rw [soundEq o s h, hmov]
    intro hmem
    simp at hmem
  · intro o s h hq hl
    have hcons := headCons s _ hq
    have hml : (moveLane s.player.lane "left").1 = s.player.lane - 1 := by
      unfold moveLane
      rw [if_pos ⟨rfl, hl⟩]

    rw [laneEq o s h]
    unfold tickLane
    rw [hcons, inputStep_cons]
    exact hml
  · intro o s h hq hl
    have hcons := headCons s _ hq
    have hml : (moveLane s.player.lane "right").1 = s.player.lane + 1 := by
      unfold moveLane
      rw [if_neg (by simp), if_pos ⟨rfl, hl⟩]
    rw [laneEq o s h]
    unfold tickLane
    rw [hcons, inputStep_cons]
    exact hml

section ConcreteStates

/-- A concrete 600 × 380 canvas used for witnesses and counterexamples. -/
def cfgW : Config := { width := 600, height := 380 }

/-- A concrete frame oracle (all draws zero). -/
def oW : Oracle :=
  { laneDraw := 0, speedDraw := 0, rotDraw := 0, typeDraw1 := 0, typeDraw2 := 0, idVal := 0 }

/-- A live state with two rocks in the player lane that will both be
within hit distance of the player (y = 380 - 120 = 260) after this
frame's advance, while the player is vulnerable (hitTimer 0). -/
def sOverlap : SimState :=
  { player := { lane := 1, x := 225, y := 260, isHit := false, hitTimer := 0 },
    rocks := [ { id := 1, lane := 1, y := 250, speed := 2, rot := 0, type := RockType.round },
               { id := 2, lane := 1, y := 258, speed := 2, rot := 0, type := RockType.round } ],
    frameCount := 100, score := 100, difficulty := 1, lastSpawnFrame := 100,
    lives := 5, isPlaying := true, isGameOver := false, inputQueue := [] }

/-- The same two-rock overlap state with a single life left. -/
def sOverlapFatal : SimState := { sOverlap with lives := 1 }

/-- A live state sitting out an invulnerability window (hitTimer 5),
with a rock parked within hit distance. -/
def sImmune : SimState :=
  { player := { lane := 1, x := 225, y := 260, isHit := false, hitTimer := 5 },
    rocks := [ { id := 1, lane := 1, y := 250, speed := 2, rot := 0, type := RockType.round } ],
    frameCount := 100, score := 100, difficulty := 1, lastSpawnFrame := 100,
    lives := 5, isPlaying := true, isGameOver := false, inputQueue := [] }

end ConcreteStates

section Protection

/-- Appending host input does not touch the hit timer. -/
lemma tickTimer_queue (s : SimState) (q : List String) :
    tickTimer { s with inputQueue := q } = tickTimer s := rfl

/-- One scheduler step with at least two frames left on the hit timer
loses no life and burns at most one frame of the timer. -/
lemma step_protected (cfg : Config) (s : SimState) (p : List String × Oracle)
    (h : 2 ≤ s.player.hitTimer) :
    (runStep cfg s p).lives = s.lives ∧
    s.player.hitTimer - 1 ≤ (runStep cfg s p).player.hitTimer := by
  unfold runStep
  by_cases hr : running { s with inputQueue := s.inputQueue ++ p.1 }
  · rw [tick_running cfg p.2 _ hr]
    have ht : 0 < tickTimer { s with inputQueue := s.inputQueue ++ p.1 } := by
      rw [tickTimer_queue]
      unfold tickTimer
      split <;> omega
    have h0 := tickHits_of_timer_pos cfg p.2 _ ht
    constructor
    · show (if 0 < tickHits cfg p.2 { s with inputQueue := s.inputQueue ++ p.1 } then
              s.lives - 1 else s.lives) = s.lives
      rw [h0, if_neg (by omega)]
    · show s.player.hitTimer - 1 ≤
        (if 0 < tickHits cfg p.2 { s with inputQueue := s.inputQueue ++ p.1 } then
           { tickPlayerPre cfg { s with inputQueue := s.inputQueue ++ p.1 } with
               hitTimer := 60, isHit := true }
         else tickPlayerPre cfg { s with inputQueue := s.inputQueue ++ p.1 }).hitTimer
      rw [h0, if_neg (by omega)]
      show s.player.hitTimer - 1 ≤ tickTimer { s with inputQueue := s.inputQueue ++ p.1 }
      rw [tickTimer_queue]
      unfold tickTimer
      split <;> omega
  · rw [tick_not_running cfg p.2 _ hr]
    exact ⟨rfl, Nat.sub_le _ _⟩

/-- A hit timer of n protects the lives value for the next n - 1
scheduler steps, irrespective of inputs and draws. -/
lemma runFrom_protected (cfg : Config) :
    ∀ (steps : List (List String × Oracle)) (s : SimState),
      steps.length < s.player.hitTimer → (runFrom cfg s steps).lives = s.lives := by
  intro steps
  induction steps with
  | nil => intro s _; rfl
  | cons p rest ih =>
    intro s h
    simp only [List.length_cons] at h
    have h2 : 2 ≤ s.player.hitTimer := by omega
    obtain ⟨hl, ht⟩ := step_protected cfg s p h2
    have hrest : rest.length < (runStep cfg s p).player.hitTimer := by omega
    have hfold : runFrom cfg s (p :: rest) = runFrom cfg (runStep cfg s p) rest := by
      simp [runFrom]
    rw [hfold, ih _ hrest, hl]

end Protection

/-- C1 counterexample: from the live state `sOverlap` (vulnerable
player, two rocks in the player lane that are both within hit distance
this frame), a single frame consumes BOTH rocks, plays two hit sounds
and invokes the lives callback twice — so more than one obstacle
registers a collision and triggers the life-decrement handler on the
same tick, refuting "at most one of them triggers a life decrement" as
a statement about the per-obstacle handler; the published lives value
still only drops from 5 to 4 because every handler call of a frame
computes from the same frame-start lives. -/
theorem C1_counterexample :
    sOverlap.player.hitTimer = 0 ∧ sOverlap.lives = 5 ∧
    (tick cfgW oW sOverlap).2.updateLivesCalls = [4, 4] ∧
    (tick cfgW oW sOverlap).2.sounds = [Sound.hit, Sound.hit] ∧
    (tick cfgW oW sOverlap).1.rocks = [] ∧
    (tick cfgW oW sOverlap).1.lives = 4 := by
  refine ⟨rfl, rfl, ?_, ?_, ?_, ?_⟩ <;>
    norm_num [tick, tickBody, tickLane, tickQueue, tickMoved, tickX, tickDiff,
      tickScoreCalls, tickSpawns, tickRocksMoved, tickRocksPruned, tickTimer,
      tickPlayerPre, tickHits, tickRocksFinal, spawnRate, newRock, rockType,
      inputStep, moveLane, advanceRock, hitB, hitDistance, gameWidth, laneWidth,
      offsetX, MAX_GAME_WIDTH, PLAYER_Y_OFFSET, LANES, sOverlap, cfgW, oW,
      List.filter, List.replicate, abs, noEvents]

/-- C1 (amended): collision immunity at frame granularity.  Whenever the
hit timer is still positive after its per-frame decrement, the frame
evaluates no collision: no rock is consumed, no lives callback fires and
the lives value is untouched; while the timer is positive at frame start
it decrements by exactly 1 that frame; any single frame loses at most one
life; and a hit timer of n protects the lives value for the following
n - 1 frames, regardless of inputs and draws — so a hit (timer 60) is
followed by 59 frames in which overlapping obstacles cause no further
life loss.  (Several obstacles overlapping on the hit frame itself are
all consumed and each fires the handler, but the published lives value
still drops by exactly one; see the counterexample.) -/
theorem C1_invulnerability (cfg : Config) :
    (∀ (o : Oracle) (s : SimState), running s → 0 < tickTimer s →
       tickHits cfg o s = 0 ∧
       (tick cfg o s).2.updateLivesCalls = [] ∧
       (tick cfg o s).1.lives = s.lives) ∧
    (∀ (o : Oracle) (s : SimState), running s → 0 < s.player.hitTimer →
       tickTimer s = s.player.hitTimer - 1 ∧
       (2 ≤ s.player.hitTimer →
          (tick cfg o s).1.player.hitTimer = s.player.hitTimer - 1)) ∧
    (∀ (o : Oracle) (s : SimState),
       (tick cfg o s).1.lives = s.lives ∨ (tick cfg o s).1.lives = s.lives - 1) ∧
    (∀ (steps : List (List String × Oracle)) (s : SimState),
       steps.length < s.player.hitTimer → (runFrom cfg s steps).lives = s.lives) := by
  refine ⟨?_, ?_, ?_, runFrom_protected cfg⟩
  · intro o s h ht
    have h0 := tickHits_of_timer_pos cfg o s ht
    rw [tick_running cfg o s h]
    refine ⟨h0, ?_, ?_⟩
    · show List.replicate (tickHits cfg o s) (s.lives - 1) = []
      rw [h0]
      rfl
    · show (if 0 < tickHits cfg o s then s.lives - 1 else s.lives) = s.lives
      rw [h0, if_neg (by omega)]
  · intro o s h ht
    have htt : tickTimer s = s.player.hitTimer - 1 := by
      unfold tickTimer
      rw [if_pos ht]
    refine ⟨htt, ?_⟩
    intro h2
    have hpos : 0 < tickTimer s := by omega
    have h0 := tickHits_of_timer_pos cfg o s hpos
    rw [tick_running cfg o s h]
    show (if 0 < tickHits cfg o s then
            { tickPlayerPre cfg s with hitTimer := 60, isHit := true }
          else tickPlayerPre cfg s).hitTimer = s.player.hitTimer - 1
    rw [h0, if_neg (by omega)]
    exact htt
  · intro o s
    by_cases h : running s
    · rw [tick_running cfg o s h]
      show (if 0 < tickHits cfg o s then s.lives - 1 else s.lives) = s.lives ∨
        (if 0 < tickHits cfg o s then s.lives - 1 else s.lives) = s.lives - 1
      split
      · right; rfl
      · left; rfl
    · rw [tick_not_running cfg o s h]
      left
      rfl

theorem C1_invulnerability_witness :
    tickHits cfgW oW sImmune = 0 ∧
    (tick cfgW oW sImmune).2.updateLivesCalls = [] ∧
    (tick cfgW oW sImmune).1.lives = 5 ∧
    (tick cfgW oW sImmune).1.player.hitTimer = 4 ∧
    (runFrom cfgW sImmune [([], oW), ([], oW), ([], oW), ([], oW)]).lives = 5 := by
  have h1 := (C1_invulnerability cfgW).1 oW sImmune ⟨rfl, rfl⟩ (by decide)
  have h2 := ((C1_invulnerability cfgW).2.1 oW sImmune ⟨rfl, rfl⟩ (by decide)).2 (by decide)
  have h4 := (C1_invulnerability cfgW).2.2.2 [([], oW), ([], oW), ([], oW), ([], oW)]
    sImmune (by decide)
  exact ⟨h1.1, h1.2.1, h1.2.2, h2, h4⟩

/-- C2 counterexample: from the live state `sOverlapFatal` (one life
left, two rocks in the player lane within hit distance this frame), the
game-over callback fires twice within the single fatal frame — not
exactly once — because the source collision loop keeps running after the
first `handleHit` and each handler re-fires `onGameOver`. -/
theorem C2_counterexample :
    sOverlapFatal.lives = 1 ∧
    (tick cfgW oW sOverlapFatal).2.gameOverCalls = [10, 10] ∧
    ¬ (tick cfgW oW sOverlapFatal).2.gameOverCalls.length ≤ 1 := by
  refine ⟨rfl, ?_, ?_⟩ <;>
    norm_num [tick, tickBody, tickLane, tickQueue, tickMoved, tickX, tickDiff,
      tickScoreCalls, tickSpawns, tickRocksMoved, tickRocksPruned, tickTimer,
      tickPlayerPre, tickHits, tickRocksFinal, spawnRate, newRock, rockType,
      inputStep, moveLane, advanceRock, hitB, hitDistance, gameWidth, laneWidth,
      offsetX, MAX_GAME_WIDTH, PLAYER_Y_OFFSET, LANES, sOverlapFatal, sOverlap,
      cfgW, oW, List.filter, List.replicate, abs, noEvents]

/-- C2 (amended): the game-over callback fires only on the frame whose
collision pass runs with at most one life left; on that frame it fires
once per obstacle consumed (so several calls can occur on one frame when
obstacles overlap), every call carries floor(rawScore / 10); it never
fires while more than one life remains; the frame that fires it also
raises the published isGameOver flag, and once isGameOver is set a frame
neither advances state nor emits any event, so no later frame fires it
again. -/
theorem C2_game_over (cfg : Config) :
    (∀ (o : Oracle) (s : SimState), running s → 1 < s.lives →
       (tick cfg o s).2.gameOverCalls = []) ∧
    (∀ (o : Oracle) (s : SimState), running s →
       ∀ v ∈ (tick cfg o s).2.gameOverCalls, v = (s.score + 1) / 10) ∧
    (∀ (o : Oracle) (s : SimState), s.isGameOver = true →
       tick cfg o s = (s, noEvents)) ∧
    (∀ (o : Oracle) (s : SimState), running s →
       ((tick cfg o s).1.isGameOver = true ↔ (tick cfg o s).2.gameOverCalls ≠ [])) ∧
    (∀ (o : Oracle) (s : SimState), running s → s.lives ≤ 1 →
       (tick cfg o s).2.gameOverCalls.length =
         (tick cfg o s).2.updateLivesCalls.length) := by
  have goEq : ∀ (o : Oracle) (s : SimState), running s →
      (tick cfg o s).2.gameOverCalls =
        if 0 < tickHits cfg o s ∧ s.lives - 1 ≤ 0 then
          List.replicate (tickHits cfg o s) ((s.score + 1) / 10)
        else [] := by
    intro o s h
    rw [tick_running cfg o s h]
    rfl
  have ulEq : ∀ (o : Oracle) (s : SimState), running s →
      (tick cfg o s).2.updateLivesCalls =
        List.replicate (tickHits cfg o s) (s.lives - 1) := by
    intro o s h
    rw [tick_running cfg o s h]
    rfl
  refine ⟨?_, ?_, ?_, ?_, ?_⟩
  · intro o s h hl
    rw [goEq o s h, if_neg]
    rintro ⟨-, hle⟩
    omega
  · intro o s h v hv
    rw [goEq o s h] at hv
    split at hv
    · exact List.eq_of_mem_replicate hv
    · simp at hv
  · intro o s hover
    unfold tick
    rw [hover]
    simp
  · intro o s h
    have hov : (tick cfg o s).1.isGameOver =
        (s.isGameOver || (decide (0 < tickHits cfg o s) && decide (s.lives - 1 ≤ 0))) := by
      rw [tick_running cfg o s h]
      rfl
    rw [hov, goEq o s h, h.2]
    by_cases h1 : 0 < tickHits cfg o s <;> by_cases h2 : s.lives - 1 ≤ 0 <;>
      simp [h1, h2, List.replicate_eq_nil_iff] <;> omega
  · intro o s h hl
    rw [goEq o s h, ulEq o s h]
    by_cases h1 : 0 < tickHits cfg o s
    · rw [if_pos ⟨h1, by omega⟩]
      simp
    · rw [if_neg (by tauto)]
      have h0 : tickHits cfg o s = 0 := by omega
      rw [h0]
      rfl

theorem C2_game_over_witness :
    (tick cfgW oW sOverlap).2.gameOverCalls = [] ∧
    tick cfgW oW { sOverlap with isGameOver := true } =
      ({ sOverlap with isGameOver := true }, noEvents) := by
  exact ⟨(C2_game_over cfgW).1 oW sOverlap ⟨rfl, rfl⟩ (by decide),
    (C2_game_over cfgW).2.2.1 oW { sOverlap with isGameOver := true } rfl⟩

/-- A quiet live state on the 9th frame: no rocks, frame counter about
to reach 10, raw score 99. -/
def sQuiet : SimState :=
  { player := { lane := 1, x := 225, y := 260, isHit := false, hitTimer := 0 },
    rocks := [], frameCount := 9, score := 99, difficulty := 1, lastSpawnFrame := 5,
    lives := 5, isPlaying := true, isGameOver := false, inputQueue := [] }

/-- C8: while live, the raw score advances by exactly 1 per frame; the
external score callback fires exactly on frames whose (incremented)
frame counter is divisible by 10 and then publishes floor(rawScore/10);
on every other frame no score callback fires; the lives callback fires
on every frame whose lives value changes, and the game-over callback on
the frame that raises the isGameOver flag. -/
theorem C8_score_publish (cfg : Config) :
    (∀ (o : Oracle) (s : SimState), running s → (tick cfg o s).1.score = s.score + 1) ∧
    (∀ (o : Oracle) (s : SimState), running s → (tick cfg o s).1.frameCount % 10 = 0 →
       (tick cfg o s).2.setScoreCalls = [(s.score + 1) / 10]) ∧
    (∀ (o : Oracle) (s : SimState), running s → (tick cfg o s).1.frameCount % 10 ≠ 0 →
       (tick cfg o s).2.setScoreCalls = []) ∧
    (∀ (o : Oracle) (s : SimState), running s → (tick cfg o s).1.lives ≠ s.lives →
       (tick cfg o s).2.updateLivesCalls ≠ []) ∧
    (∀ (o : Oracle) (s : SimState), running s → (tick cfg o s).1.isGameOver = true →
       s.isGameOver = false → (tick cfg o s).2.gameOverCalls ≠ []) := by
  have hframe : ∀ (o : Oracle) (s : SimState), running s →
      (tick cfg o s).1.frameCount = s.frameCount + 1 := by
    intro o s h
    rw [tick_running cfg o s h]
    rfl
  have hcalls : ∀ (o : Oracle) (s : SimState), running s →
      (tick cfg o s).2.setScoreCalls = tickScoreCalls s := by
    intro o s h
    rw [tick_running cfg o s h]
    rfl
  refine ⟨?_, ?_, ?_, ?_, ?_⟩
  · intro o s h
    rw [tick_running cfg o s h]
    rfl
  · intro o s h hdiv
    rw [hframe o s h] at hdiv
    rw [hcalls o s h]
    unfold tickScoreCalls
    rw [if_pos hdiv]
  · intro o s h hdiv
    rw [hframe o s h] at hdiv
    rw [hcalls o s h]
    unfold tickScoreCalls
    rw [if_neg hdiv]
  · intro o s h hl
    have hlv : (tick cfg o s).1.lives =
        (if 0 < tickHits cfg o s then s.lives - 1 else s.lives) := by
      rw [tick_running cfg o s h]
      rfl
    have hu : (tick cfg o s).2.updateLivesCalls =
        List.replicate (tickHits cfg o s) (s.lives - 1) := by
      rw [tick_running cfg o s h]
      rfl
    rw [hlv] at hl
    rw [hu]
    by_cases h1 : 0 < tickHits cfg o s
    · simp [List.replicate_eq_nil_iff]
      omega
    · rw [if_neg h1] at hl
      exact absurd rfl hl
  · intro o s h hov h0
    have hb : (tick cfg o s).1.isGameOver =
        (s.isGameOver || (decide (0 < tickHits cfg o s) && decide (s.lives - 1 ≤ 0))) := by
      rw [tick_running cfg o s h]
      rfl
    have hgo : (tick cfg o s).2.gameOverCalls =
        if 0 < tickHits cfg o s ∧ s.lives - 1 ≤ 0 then
          List.replicate (tickHits cfg o s) ((s.score + 1) / 10)
        else [] := by
      rw [tick_running cfg o s h]
      rfl
    rw [hb, h0] at hov
    simp at hov
    rw [hgo, if_pos (show 0 < tickHits cfg o s ∧ s.lives - 1 ≤ 0 from ⟨hov.1, by omega⟩)]
    simp [List.replicate_eq_nil_iff]
    omega

theorem C8_score_publish_witness :
    (tick cfgW oW sQuiet).1.score = 100 ∧
    (tick cfgW oW sQuiet).2.setScoreCalls = [10] ∧
    (tick cfgW oW sOverlap).2.setScoreCalls = [] := by
  have h1 := (C8_score_publish cfgW).1 oW sQuiet ⟨rfl, rfl⟩
  have h2 := (C8_score_publish cfgW).2.1 oW sQuiet ⟨rfl, rfl⟩ (by rfl)
  have h3 := (C8_score_publish cfgW).2.2.1 oW sOverlap ⟨rfl, rfl⟩ (by decide)
  exact ⟨h1, h2, h3⟩

/-- The isHit flag can only be raised together with a live hit timer. -/
def InvHit (s : SimState) : Prop := s.player.isHit = true → 0 < s.player.hitTimer

/-- C10: isHit marks exactly the frame of a registered collision.  The
initial state satisfies the coupling invariant (isHit is only raised
together with a live timer); every frame preserves it; under it, a live
frame ends with isHit = true exactly when the frame registered at least
one collision (fired the lives callback); on every later frame of the
window (timer still ≥ 2) isHit is already false again even though the
timer is still positive; and the renderer flash test reads only the hit
timer, never isHit. -/
theorem C10_isHit (cfg : Config) :
    InvHit (initState cfg) ∧
    (∀ (o : Oracle) (s : SimState), InvHit s → InvHit (tick cfg o s).1) ∧
    (∀ (o : Oracle) (s : SimState), running s → InvHit s →
       ((tick cfg o s).1.player.isHit = true ↔
         (tick cfg o s).2.updateLivesCalls ≠ [])) ∧
    (∀ (o : Oracle) (s : SimState), running s → 2 ≤ s.player.hitTimer →
       (tick cfg o s).1.player.isHit = false ∧
       0 < (tick cfg o s).1.player.hitTimer) ∧
    (∀ p q : Player, p.hitTimer = q.hitTimer → shipHidden p = shipHidden q) := by
  have hp : ∀ (o : Oracle) (s : SimState), running s →
      (tick cfg o s).1.player =
        (if 0 < tickHits cfg o s then
           { tickPlayerPre cfg s with hitTimer := 60, isHit := true }
         else tickPlayerPre cfg s) := by
    intro o s h
    rw [tick_running cfg o s h]
    rfl
  have hu : ∀ (o : Oracle) (s : SimState), running s →
      (tick cfg o s).2.updateLivesCalls =
        List.replicate (tickHits cfg o s) (s.lives - 1) := by
    intro o s h
    rw [tick_running cfg o s h]
    rfl
  have preIsHit : ∀ (s : SimState), InvHit s →
      (tickPlayerPre cfg s).isHit = false := by
    intro s hinv
    show (if 0 < s.player.hitTimer then false else s.player.isHit) = false
    by_cases h2 : 0 < s.player.hitTimer
    · rw [if_pos h2]
    · rw [if_neg h2]
      cases hih : s.player.isHit with
      | false => rfl
      | true => exact absurd (hinv hih) h2
  refine ⟨?_, ?_, ?_, ?_, ?_⟩
  · intro h
    exact absurd h (by simp [initState])
  · intro o s hinv
    by_cases h : running s
    · intro hih
      rw [hp o s h] at hih ⊢
      by_cases h1 : 0 < tickHits cfg o s
      · rw [if_pos h1]
        norm_num
      · rw [if_neg h1] at hih
        rw [preIsHit s hinv] at hih
        exact Bool.noConfusion hih
    · rw [tick_not_running cfg o s h]
      exact hinv
  · intro o s h hinv
    rw [hp o s h, hu o s h]
    by_cases h1 : 0 < tickHits cfg o s
    · rw [if_pos h1]
      simp [List.replicate_eq_nil_iff]
      omega
    · rw [if_neg h1, preIsHit s hinv]
      have h0 : tickHits cfg o s = 0 := by omega
      rw [h0]
      simp
  · intro o s h h2
    have h1 : tickHits cfg o s = 0 :=
      tickHits_of_timer_pos cfg o s (by unfold tickTimer; split <;> omega)
    rw [hp o s h, if_neg (by omega)]
    refine ⟨preIsHit s ?_, ?_⟩
    · intro _
      omega
    · show 0 < tickTimer s
      unfold tickTimer
      split <;> omega
  · intro p q hpq
    unfold shipHidden
    rw [hpq]

theorem C10_isHit_witness :
    ((tick cfgW oW sOverlap).1.player.isHit = true ↔
      (tick cfgW oW sOverlap).2.updateLivesCalls ≠ []) ∧
    (tick cfgW oW sImmune).1.player.isHit = false ∧
    0 < (tick cfgW oW sImmune).1.player.hitTimer ∧
    shipHidden { lane := 0, x := 0, y := 0, isHit := true, hitTimer := 7 } =
      shipHidden { lane := 1, x := 5, y := 9, isHit := false, hitTimer := 7 } := by
  have h1 := (C10_isHit cfgW).2.2.1 oW sOverlap ⟨rfl, rfl⟩ (by intro h; exact absurd h (by decide))
  have h2 := (C10_isHit cfgW).2.2.2.1 oW sImmune ⟨rfl, rfl⟩ (by decide)
  have h3 := (C10_isHit cfgW).2.2.2.2
    { lane := 0, x := 0, y := 0, isHit := true, hitTimer := 7 }
    { lane := 1, x := 5, y := 9, isHit := false, hitTimer := 7 } rfl
  exact ⟨h1, h2.1, h2.2, h3⟩

/-- A live state at the left edge (lane 0) with a pending left token. -/
def sEdge : SimState :=
  { player := { lane := 0, x := 75, y := 260, isHit := false, hitTimer := 0 },
    rocks := [], frameCount := 9, score := 99, difficulty := 1, lastSpawnFrame := 5,
    lives := 5, isPlaying := true, isGameOver := false, inputQueue := ["left"] }

theorem C4_lane_bounds_witness :
    (run cfgW [(["left"], oW), (["left"], oW), (["right"], oW)]).player.lane ≤ LANES - 1 ∧
    (tick cfgW oW sEdge).1.player.lane = 0 ∧
    Sound.move ∉ (tick cfgW oW sEdge).2.sounds := by
  have h1 := (C4_lane_bounds cfgW).1 [(["left"], oW), (["left"], oW), (["right"], oW)]
  have h2 := (C4_lane_bounds cfgW).2.2.1 oW sEdge ⟨rfl, rfl⟩ rfl rfl
  exact ⟨h1, h2.1, h2.2⟩

/-- The coupling of the three clock quantities along a run: the raw score
equals the frame counter, and the difficulty always reflects the score at
the most recent multiple-of-10 frame. -/
def scoreFrameInv (s : SimState) : Prop :=
  s.score = s.frameCount ∧
  s.difficulty = 1 + ((10 * (s.frameCount / 10) : ℕ) : ℚ) / 4000

/-- C5 counterexample: one frame into a fresh run the raw score is 1,
the spawn interval the code will use is still 90 (difficulty is only
recomputed every 10th frame), while the claimed formula
max(30, floor(90 / (1 + rawScore/4000))) already yields 89. -/
theorem C5_counterexample :
    (run cfgW [([], oW)]).score = 1 ∧
    spawnRate (run cfgW [([], oW)]).difficulty = 90 ∧
    specInterval 1 = 89 ∧ (90 : ℤ) ≠ 89 := by
  refine ⟨?_, ?_, ?_, by norm_num⟩ <;>
    norm_num [run, runFrom, runStep, initState, tick, tickBody, tickDiff,
      tickScoreCalls, tickSpawns, tickRocksMoved, tickRocksPruned, tickTimer,
      tickPlayerPre, tickHits, tickRocksFinal, tickLane, tickQueue, tickMoved,
      tickX, spawnRate, specInterval, newRock, rockType, inputStep, moveLane,
      advanceRock, hitB, hitDistance, gameWidth, laneWidth, offsetX,
      MAX_GAME_WIDTH, PLAYER_Y_OFFSET, LANES, cfgW, oW, List.filter,
      List.replicate, noEvents]

/-- C5 (amended): the spawn scheduler works as claimed except that the
difficulty is recomputed only on every 10th frame, so the difficulty in
effect is 1 + (10 * floor(rawScore/10)) / 4000 rather than
1 + rawScore/4000: a fresh run satisfies the coupling invariant, every
live frame preserves it, the frame difficulty becomes `tickDiff`, a
spawn fires exactly when frameCount - lastSpawnFrame ≥
max(30, floor(90/difficulty)), and on firing lastSpawnFrame is set to
the current frame counter; at raw score 0 the difficulty is 1 and the
interval 90, and at raw score 4000 (a multiple of 10) the difficulty is
2 and the interval 45. -/
theorem C5_spawn_schedule (cfg : Config) :
    scoreFrameInv (initState cfg) ∧
    (∀ (o : Oracle) (s : SimState), running s → scoreFrameInv s →
       scoreFrameInv (tick cfg o s).1) ∧
    (∀ (o : Oracle) (s : SimState), running s →
       (tick cfg o s).1.difficulty = tickDiff s ∧
       ((tick cfg o s).2.spawned = true ↔
         spawnRate (tickDiff s) ≤ ((s.frameCount + 1 : ℕ) : ℤ) - (s.lastSpawnFrame : ℤ)) ∧
       (tick cfg o s).1.lastSpawnFrame =
         (if (tick cfg o s).2.spawned = true then s.frameCount + 1 else s.lastSpawnFrame)) ∧
    (∀ s : SimState, scoreFrameInv s → s.score = 0 →
       s.difficulty = 1 ∧ spawnRate s.difficulty = 90) ∧
    (∀ s : SimState, scoreFrameInv s → s.score = 4000 →
       s.difficulty = 2 ∧ spawnRate s.difficulty = 45) := by
  refine ⟨?_, ?_, ?_, ?_, ?_⟩
  · constructor
    · rfl
    · show (1 : ℚ) = 1 + ((10 * (0 / 10) : ℕ) : ℚ) / 4000
      norm_num
  · intro o s h hinv
    obtain ⟨hs, hd⟩ := hinv
    rw [tick_running cfg o s h]
    constructor
    · show s.score + 1 = s.frameCount + 1
      omega
    · show tickDiff s = 1 + ((10 * ((s.frameCount + 1) / 10) : ℕ) : ℚ) / 4000
      unfold tickDiff
      by_cases hm : (s.frameCount + 1) % 10 = 0
      · rw [if_pos hm]
        have h10 : 10 * ((s.frameCount + 1) / 10) = s.frameCount + 1 := by omega
        rw [h10, hs]
      · rw [if_neg hm]
        have h10 : (s.frameCount + 1) / 10 = s.frameCount / 10 := by omega
        rw [h10, hd]
  · intro o s h
    refine ⟨by rw [tick_running cfg o s h]; rfl, ?_, ?_⟩
    · have hsp : (tick cfg o s).2.spawned = tickSpawns s := by
        rw [tick_running cfg o s h]
        rfl
      rw [hsp]
      unfold tickSpawns
      exact decide_eq_true_iff
    · have hsp : (tick cfg o s).2.spawned = tickSpawns s := by
        rw [tick_running cfg o s h]
        rfl
      have hls : (tick cfg o s).1.lastSpawnFrame =
          (if tickSpawns s then s.frameCount + 1 else s.lastSpawnFrame) := by
        rw [tick_running cfg o s h]
        rfl
      rw [hls, hsp]
  · intro s hinv h0
    obtain ⟨hs, hd⟩ := hinv
    have hf : s.frameCount = 0 := by omega
    rw [hf] at hd
    norm_num at hd
    refine ⟨hd, ?_⟩
    rw [hd]
    unfold spawnRate
    norm_num
  · intro s hinv h0
    obtain ⟨hs, hd⟩ := hinv
    have hf : s.frameCount = 4000 := by omega
    rw [hf] at hd
    norm_num at hd
    refine ⟨hd, ?_⟩
    rw [hd]
    unfold spawnRate
    norm_num

theorem C5_spawn_schedule_witness :
    scoreFrameInv (initState cfgW) ∧
    (initState cfgW).difficulty = 1 ∧
    spawnRate (initState cfgW).difficulty = 90 := by
  have h1 := (C5_spawn_schedule cfgW).1
  have h2 := (C5_spawn_schedule cfgW).2.2.2.1 (initState cfgW) h1 rfl
  exact ⟨h1, h2.1, h2.2⟩

/-- The `MissionDebrief` interface of `types.ts`. -/
structure MissionDebrief where
  message : String
  fact : String
deriving DecidableEq, Repr

/-- The static fallback pair returned when the API key is missing or any
error is caught. -/
def staticFallback : MissionDebrief :=
  { message := "Mission Complete!",
    fact := "Did you know asteroids are leftover rocks from when planets formed?" }

/-- The fallback pair returned when the response text is empty. -/
def emptyTextFallback : MissionDebrief :=
  { message := "Good job!", fact := "Space is huge!" }

/-- The body of the try block of `generateMissionDebrief`: the missing-key
early return, the awaited service call (an `Except` standing for a call
that either throws or yields the optional response text), the empty-text
check, and the JSON parse (also fallible). -/
def debriefAttempt (hasApiKey : Bool) (call : Except String (Option String))
    (parse : String → Except String MissionDebrief) : Except String MissionDebrief :=
  if !hasApiKey then Except.ok staticFallback
  else
    match call with
    | Except.error e => Except.error e
    | Except.ok none => Except.ok emptyTextFallback
    | Except.ok (some t) =>
        if t = "" then Except.ok emptyTextFallback else parse t

/-- `generateMissionDebrief` of `services/gemini.ts`: the try body with
the surrounding catch, which logs the error and substitutes the static
fallback.  The score argument only feeds the prompt text; the second
component is the console log, the only place a failure is reported. -/
def generateMissionDebrief (score : Int) (hasApiKey : Bool)
    (call : Except String (Option String))
    (parse : String → Except String MissionDebrief) : MissionDebrief × List String :=
  match score, debriefAttempt hasApiKey call parse with
  | _, Except.ok d => (d, [])
  | _, Except.error e => (staticFallback, ["Gemini Error: " ++ e])

/-- C9: the debrief wrapper is total and never propagates an error: with
the API key missing it returns the static fallback without even calling
the service; a throwing service call is caught, logged and replaced by
the static fallback; an absent or empty response text yields the fixed
empty-text pair; a failing parse of a non-empty text is caught, logged
and replaced by the static fallback. -/
theorem C9_debrief_fallback :
    (∀ (score : Int) (call : Except String (Option String))
       (parse : String → Except String MissionDebrief),
       generateMissionDebrief score false call parse = (staticFallback, [])) ∧
    (∀ (score : Int) (parse : String → Except String MissionDebrief) (e : String),
       generateMissionDebrief score true (Except.error e) parse =
         (staticFallback, ["Gemini Error: " ++ e])) ∧
    (∀ (score : Int) (parse : String → Except String MissionDebrief),
       generateMissionDebrief score true (Except.ok none) parse =
         (emptyTextFallback, [])) ∧
    (∀ (score : Int) (parse : String → Except String MissionDebrief),
       generateMissionDebrief score true (Except.ok (some "")) parse =
         (emptyTextFallback, [])) ∧
    (∀ (score : Int) (t : String) (parse : String → Except String MissionDebrief)
       (e : String), parse t = Except.error e → t ≠ "" →
       generateMissionDebrief score true (Except.ok (some t)) parse =
         (staticFallback, ["Gemini Error: " ++ e])) := by
  refine ⟨?_, ?_, ?_, ?_, ?_⟩
  · intro score call parse
    rfl
  · intro score parse e
    rfl
  · intro score parse
    rfl
  · intro score parse
    unfold generateMissionDebrief debriefAttempt
    norm_num
  · intro score t parse e hparse ht
    have hda : debriefAttempt true (Except.ok (some t)) parse = Except.error e := by
      show (if t = "" then Except.ok emptyTextFallback else parse t) = Except.error e
      rw [if_neg ht, hparse]
    unfold generateMissionDebrief
    rw [hda]

theorem C9_debrief_fallback_witness :
    generateMissionDebrief 42 true (Except.ok (some "bad"))
        (fun t => Except.error ("parse fail " ++ t)) =
      (staticFallback, ["Gemini Error: " ++ ("parse fail " ++ "bad")]) ∧
    generateMissionDebrief 42 false (Except.ok (some "bad"))
        (fun t => Except.error ("parse fail " ++ t)) = (staticFallback, []) := by
  constructor
  · exact C9_debrief_fallback.2.2.2.2 42 "bad"
      (fun t => Except.error ("parse fail " ++ t)) ("parse fail " ++ "bad") rfl
      (by simp)
  · exact C9_debrief_fallback.1 42 (Except.ok (some "bad"))
      (fun t => Except.error ("parse fail " ++ t))

end SpaceAdventure
